import Mathlib

/-!
Shallow embedding of the weather MCP server repository.

The repository contains two variants of the server:
  * the geocoding variant (src/server.ts): `buildParams` validates the
    arguments with `commonSchema.parse`, resolves a truthy city name to
    coordinates through the Nominatim geocoding service, and the four
    registered handlers wrap the upstream JSON in a text-content envelope;
  * the direct-query variant (the unnamed second server file): `buildParams`
    performs no validation and forwards either the raw city string as `q`
    or the stringified coordinates, and the three handlers return the
    parsed upstream JSON directly.

Modelling decisions:
  * machine numbers (JS doubles) are modelled as rationals; the JS
    `String(number)` conversion is modelled by the canonical rational
    rendering (an injective function, which is all the claims need);
  * JS `undefined` is modelled by `Option` at field positions and by a
    dedicated JSON constructor where values flow into `JSON.stringify`;
  * the two external HTTP collaborators (Nominatim geocoding, the
    OpenWeatherMap API) are modelled as oracles passed in an environment:
    geocoding returns `Option (Rat × Rat)` (`none` models the thrown
    "city not found" / request-failure path), the weather API returns a
    JSON value;
  * every outbound HTTP request is recorded in a trace (`List Request`)
    so that request-count claims are statable;
  * zod's `parse` is modelled by `zodIssues`, the list of issues it would
    report: field issues (the `.min`/`.max` bounds on `lat`/`lon`) are
    collected first and, exactly when they are absent, the `.refine`
    predicate is checked (zod only runs refinements when the base object
    parses).
-/

inductive WUnits where
  | standard
  | metric
  | imperial
deriving DecidableEq, Repr

def WUnits.toStr : WUnits → String
  | .standard => "standard"
  | .metric => "metric"
  | .imperial => "imperial"

/-- The common tool arguments (`commonFields` in both variants):
`city?: string`, `lat?: number in [-90, 90]`, `lon?: number in [-180, 180]`,
`units?: "standard" | "metric" | "imperial"` (defaulted to metric). -/
structure Args where
  city : Option String := none
  lat : Option Rat := none
  lon : Option Rat := none
  units : Option WUnits := none

/-- JS truthiness of an optional string (`if (args.city)`, `d.city ||`):
truthy exactly when present and non-empty. -/
def jsTruthyStr : Option String → Bool
  | some s => !(s == "")
  | none => false

/-- One issue reported by `commonSchema.parse`.  The four range issues come
from `z.number().min(..).max(..)` on `lat` and `lon`; `custom` carries the
message of the `.refine` on the object. -/
inductive ZodIssue where
  | latTooSmall
  | latTooBig
  | lonTooSmall
  | lonTooBig
  | custom (msg : String)
deriving DecidableEq, Repr

/-- The field-level issues of `commonFields`: `lat` must lie in [-90, 90]
and `lon` in [-180, 180] when present (zod `.min`/`.max` are inclusive). -/
def fieldIssues (a : Args) : List ZodIssue :=
  (match a.lat with
   | none => []
   | some q =>
     (if q < -90 then [ZodIssue.latTooSmall] else [])
       ++ (if 90 < q then [ZodIssue.latTooBig] else []))
  ++ (match a.lon with
   | none => []
   | some q =>
     (if q < -180 then [ZodIssue.lonTooSmall] else [])
       ++ (if 180 < q then [ZodIssue.lonTooBig] else []))

/-- The `.refine` predicate of `commonSchema`:
`d.city || (d.lat !== undefined && d.lon !== undefined)`. -/
def refineOk (a : Args) : Bool :=
  jsTruthyStr a.city || (a.lat.isSome && a.lon.isSome)

/-- All issues `commonSchema.parse` reports on `a`; `[]` means the parse
succeeds.  The refinement runs only when the base object parse succeeds. -/
def zodIssues (a : Args) : List ZodIssue :=
  match fieldIssues a with
  | [] => if refineOk a then [] else [ZodIssue.custom "Provide city or both lat and lon"]
  | is => is

/-- Model of JS `String(n)` on a number: the canonical rational rendering.
Injective, which is all the claims about parameter values require. -/
def jsNumStr (q : Rat) : String := toString q

/-- `String(x)` where `x` may be `undefined` (as in `String(args.lat)` of
the direct-query variant when `lat` is absent). -/
def jsOptNumStr : Option Rat → String
  | none => "undefined"
  | some q => jsNumStr q

/-- Errors a tool invocation can surface: a `ZodError` thrown by
`commonSchema.parse`, or the error thrown by `geocodeCity` when the
geocoding lookup yields no result (or fails). -/
inductive Err where
  | zod (issues : List ZodIssue)
  | geocodeFail (city : String)
deriving DecidableEq, Repr

/-- One outbound HTTP request: the single GET `geocodeCity` issues against
Nominatim, or the single GET `callApi` issues against the weather API. -/
inductive Request where
  | geocode (city : String)
  | apiGet (endpoint : String) (params : List (String × String))
deriving DecidableEq, Repr

/-- JSON values as returned by `body.json()`, extended with `undef` to model
JS `undefined` flowing into `JSON.stringify` object literals. -/
inductive Json where
  | null
  | undef
  | bool (b : Bool)
  | num (q : Rat)
  | str (s : String)
  | arr (items : List Json)
  | obj (fields : List (String × Json))

/-- JS property access `data.k` on an arbitrary value: a field lookup on
objects, `undefined` (here `none`) on everything else. -/
def jsGet : Json → String → Option Json
  | .obj fields, k => fields.lookup k
  | _, _ => none

/-- The guard `data.alerts && data.alerts.length > 0` of `getAlerts`,
applied to the (possibly absent) value of `data.alerts`: a truthy value
whose `.length` is a number greater than zero.  Arrays and strings have a
`length`; for plain objects a numeric `length` field is consulted; all
other values fail the guard. -/
def alertsCond : Option Json → Bool
  | some (.arr l) => decide (0 < l.length)
  | some (.str s) => decide (0 < s.length)
  | some (.obj fs) =>
    match fs.lookup "length" with
    | some (.num q) => decide (0 < q)
    | _ => false
  | _ => false

/-- Escape one character as inside a JSON string literal. -/
def jsEscapeChar (c : Char) : String :=
  if c == '"' then "\\\""
  else if c == '\\' then "\\\\"
  else if c == '\n' then "\\n"
  else if c == '\r' then "\\r"
  else if c == '\t' then "\\t"
  else String.singleton c

/-- A JSON string literal: quoted and escaped. -/
def jsQuote (s : String) : String :=
  "\"" ++ String.join (s.data.map jsEscapeChar) ++ "\""

/-- `2 * d` spaces: the indentation `JSON.stringify(-, null, 2)` puts in
front of a line at nesting depth `d`. -/
def pad (d : Nat) : String := String.mk (List.replicate (2 * d) ' ')

mutual

/-- `JSON.stringify(v, null, 2)` at nesting depth `d`:  scalars are
rendered in place; non-empty arrays and objects spread one element per
line, indented two spaces per depth level. -/
def sJson (d : Nat) : Json → String
  | .null => "null"
  | .undef => "undefined"
  | .bool true => "true"
  | .bool false => "false"
  | .num q => jsNumStr q
  | .str s => jsQuote s
  | .arr [] => "[]"
  | .arr (x :: xs) =>
    "[\n" ++ String.intercalate ",\n" (sElems (d + 1) (x :: xs)) ++ "\n" ++ pad d ++ "]"
  | .obj l =>
    match sFields (d + 1) l with
    | [] => "\x7b\x7d"
    | f :: fs => "\x7b\n" ++ String.intercalate ",\n" (f :: fs) ++ "\n" ++ pad d ++ "\x7d"

/-- Array elements, one rendered line each; `undefined` elements are
rendered as `null` by `JSON.stringify`. -/
def sElems (d : Nat) : List Json → List String
  | [] => []
  | .undef :: xs => (pad d ++ "null") :: sElems d xs
  | x :: xs => (pad d ++ sJson d x) :: sElems d xs

/-- Object entries, one rendered line each; entries whose value is
`undefined` are omitted by `JSON.stringify`. -/
def sFields (d : Nat) : List (String × Json) → List String
  | [] => []
  | (_, .undef) :: xs => sFields d xs
  | (k, v) :: xs => (pad d ++ jsQuote k ++ ": " ++ sJson d v) :: sFields d xs

end

/-- `JSON.stringify(v, null, 2)` as used by every handler. -/
def jsonStringify2 (v : Json) : String := sJson 0 v

mutual

/-- JS string coercion of a value, as in a template literal. -/
def jsToStr : Json → String
  | .null => "null"
  | .undef => "undefined"
  | .bool true => "true"
  | .bool false => "false"
  | .num q => jsNumStr q
  | .str s => s
  | .arr l => String.intercalate "," (jsToStrElems l)
  | .obj _ => "[object Object]"

/-- Elements under `Array.prototype.toString` (join with ","); `null` and
`undefined` elements join as the empty string. -/
def jsToStrElems : List Json → List String
  | [] => []
  | .null :: xs => "" :: jsToStrElems xs
  | .undef :: xs => "" :: jsToStrElems xs
  | x :: xs => jsToStr x :: jsToStrElems xs

end

/-- A template-literal interpolation `${x}` where `x` may be `undefined`. -/
def jsTemplate : Option Json → String
  | none => "undefined"
  | some j => jsToStr j

/-- One `{type: "text", text: ...}` content item. -/
structure ContentItem where
  type : String
  text : String
deriving DecidableEq, Repr

/-- The tool-result envelope `{content: [...]}`. -/
structure ToolResult where
  content : List ContentItem
deriving DecidableEq, Repr

/-- `if (exclude) params.exclude = exclude;` — the `exclude` entry is
appended exactly when the argument is a present, non-empty string. -/
def exclTail : Option String → List (String × String)
  | some e => if e = "" then [] else [("exclude", e)]
  | none => []

/-- Decidable check `p.data.isPrefixOf s.data`: does `s` begin with `p`? -/
def strStarts (p s : String) : Bool := p.data.isPrefixOf s.data

namespace Geo

/-- The One Call endpoint every handler of the geocoding variant calls. -/
def owOnecall : String := "https://api.openweathermap.org/data/3.0/onecall"

/-- The external collaborators of the geocoding variant: the Nominatim
geocoder (`none` models the thrown not-found / failure path of
`geocodeCity`), the weather API (endpoint and query parameters to parsed
JSON body), and the `OPENWEATHERMAP_API_KEY` environment value (the server
exits at startup when it is absent, so it is present whenever a handler
runs). -/
structure Env where
  geocode : String → Option (Rat × Rat)
  api : String → List (String × String) → Json
  apiKey : String

/-- The parameter record built at the end of `buildParams`:
`lat`, `lon`, `units` (defaulted to metric), `appid`, then `exclude` when
truthy — in insertion order. -/
def mkParams (lats lons : String) (a : Args) (apiKey : String) (excl : Option String) :
    List (String × String) :=
  [("lat", lats), ("lon", lons),
   ("units", (a.units.getD WUnits.metric).toStr), ("appid", apiKey)] ++ exclTail excl

/-- `buildParams` of the geocoding variant, with its outbound-request
trace.  It first runs `commonSchema.parse(args)` (throwing the issue list
on failure), then resolves coordinates: a truthy city is geocoded (one
outbound request; a miss throws), otherwise `args.lat!`/`args.lon!` are
used directly. -/
def buildParamsT (env : Env) (a : Args) (excl : Option String) :
    Except Err (List (String × String)) × List Request :=
  match zodIssues a with
  | i :: is => (.error (.zod (i :: is)), [])
  | [] =>
    match a.city with
    | some c =>
      if c = "" then
        (.ok (mkParams (jsOptNumStr a.lat) (jsOptNumStr a.lon) a env.apiKey excl), [])
      else
        match env.geocode c with
        | some (la, lo) =>
          (.ok (mkParams (jsNumStr la) (jsNumStr lo) a env.apiKey excl), [Request.geocode c])
        | none => (.error (.geocodeFail c), [Request.geocode c])
    | none =>
      (.ok (mkParams (jsOptNumStr a.lat) (jsOptNumStr a.lon) a env.apiKey excl), [])

/-- The shared shape of every handler body: build the parameters, then
issue exactly one GET against the One Call endpoint (`callApi`); a
`buildParams` failure propagates without any request being made. -/
def fetch (env : Env) (a : Args) (excl : Option String) :
    Except Err Json × List Request :=
  match buildParamsT env a excl with
  | (.ok p, tr) => (.ok (env.api owOnecall p), tr ++ [Request.apiGet owOnecall p])
  | (.error e, tr) => (.error e, tr)

/-- The literal envelope every handler returns:
`{content: [{type: "text", text: s}]}`. -/
def wrapText (s : String) : ToolResult := ⟨[⟨"text", s⟩]⟩

/-- Handler of `get-current-weather`: no exclusions, stringified body in
the envelope. -/
def getCurrentWeather (env : Env) (a : Args) : Except Err ToolResult × List Request :=
  match fetch env a none with
  | (.ok data, tr) => (.ok (wrapText (jsonStringify2 data)), tr)
  | (.error e, tr) => (.error e, tr)

/-- Handler of `get-hourly-forecast`: excludes `minutely,daily,alerts`. -/
def getForecast (env : Env) (a : Args) : Except Err ToolResult × List Request :=
  match fetch env a (some "minutely,daily,alerts") with
  | (.ok data, tr) => (.ok (wrapText (jsonStringify2 data)), tr)
  | (.error e, tr) => (.error e, tr)

/-- Handler of `get-daily-forecast`: excludes `minutely,hourly,alerts`. -/
def getDailyForecast (env : Env) (a : Args) : Except Err ToolResult × List Request :=
  match fetch env a (some "minutely,hourly,alerts") with
  | (.ok data, tr) => (.ok (wrapText (jsonStringify2 data)), tr)
  | (.error e, tr) => (.error e, tr)

/-- The no-alerts payload of `getAlerts`: the fixed sentence followed by
the stringified `{location: "lat, lon", current: data.current}` object. -/
def noAlertsPayload (data : Json) : String :=
  "No active weather alerts for the specified location.\n\nCurrent conditions:\n"
    ++ jsonStringify2 (Json.obj
        [("location", Json.str (jsTemplate (jsGet data "lat") ++ ", "
            ++ jsTemplate (jsGet data "lon"))),
         ("current", (jsGet data "current").getD Json.undef)])

/-- Handler of `get-alerts`: excludes `minutely,hourly,daily`; when
`data.alerts` is truthy with positive length it returns the stringified
alerts prefixed by "Weather Alerts:", otherwise the no-alerts payload. -/
def getAlerts (env : Env) (a : Args) : Except Err ToolResult × List Request :=
  match fetch env a (some "minutely,hourly,daily") with
  | (.ok data, tr) =>
    if alertsCond (jsGet data "alerts") then
      (.ok (wrapText ("Weather Alerts:\n\n"
        ++ jsonStringify2 ((jsGet data "alerts").getD Json.undef))), tr)
    else
      (.ok (wrapText (noAlertsPayload data)), tr)
  | (.error e, tr) => (.error e, tr)

end Geo

namespace Direct

/-- Endpoint of the direct-query variant's `getCurrentWeather`. -/
def weatherEndpoint : String := "https://api.openweathermap.org/data/3.0/weather"

/-- Endpoint of the direct-query variant's `getForecast` and `getAlerts`. -/
def onecallEndpoint : String := "https://api.openweathermap.org/data/3.0/onecall"

/-- `buildParams` of the direct-query variant.  It performs no validation:
`units` (defaulted), `appid`, the `exclude` entry when truthy, then either
`q` (truthy city) or `lat`/`lon` stringified — `String(args.lat)` renders
an absent coordinate as the string "undefined". -/
def buildParams (apiKey : String) (a : Args) (excl : Option String) :
    List (String × String) :=
  [("units", (a.units.getD WUnits.metric).toStr), ("appid", apiKey)]
    ++ exclTail excl
    ++ (match a.city with
        | some c =>
          if c = "" then [("lat", jsOptNumStr a.lat), ("lon", jsOptNumStr a.lon)]
          else [("q", c)]
        | none => [("lat", jsOptNumStr a.lat), ("lon", jsOptNumStr a.lon)])

/-- Direct-variant `get-current-weather`: one GET, raw JSON returned. -/
def getCurrentWeather (api : String → List (String × String) → Json)
    (apiKey : String) (a : Args) : Json × List Request :=
  (api weatherEndpoint (buildParams apiKey a none),
   [Request.apiGet weatherEndpoint (buildParams apiKey a none)])

/-- Direct-variant `get-forecast`: excludes `current,minutely,alerts`. -/
def getForecast (api : String → List (String × String) → Json)
    (apiKey : String) (a : Args) : Json × List Request :=
  (api onecallEndpoint (buildParams apiKey a (some "current,minutely,alerts")),
   [Request.apiGet onecallEndpoint (buildParams apiKey a (some "current,minutely,alerts"))])

/-- Direct-variant `get-alerts`: excludes `current,minutely,hourly,daily`. -/
def getAlerts (api : String → List (String × String) → Json)
    (apiKey : String) (a : Args) : Json × List Request :=
  (api onecallEndpoint (buildParams apiKey a (some "current,minutely,hourly,daily")),
   [Request.apiGet onecallEndpoint (buildParams apiKey a (some "current,minutely,hourly,daily"))])

end Direct

/-! ### Concrete environments and arguments used by witnesses -/

/-- A stub environment: every city geocodes to (10, 20), the weather API
returns `null`, the API key is "KEY". -/
def envStub : Geo.Env := ⟨fun _ => some (10, 20), fun _ _ => Json.null, "KEY"⟩

/-- A city-only query. -/
def aCity : Args := { city := some "London" }

/-- A coordinate query with explicit imperial units. -/
def aCoord : Args := { lat := some 10, lon := some 20, units := some WUnits.imperial }

/-! ### Helper lemmas -/

theorem Geo.mkParams_lookup_lat (lats lons : String) (a : Args) (k : String)
    (excl : Option String) :
    (Geo.mkParams lats lons a k excl).lookup "lat" = some lats := by
  simp [Geo.mkParams, List.lookup]

theorem Geo.mkParams_lookup_lon (lats lons : String) (a : Args) (k : String)
    (excl : Option String) :
    (Geo.mkParams lats lons a k excl).lookup "lon" = some lons := by
  simp [Geo.mkParams, List.lookup]

theorem Geo.mkParams_lookup_units (lats lons : String) (a : Args) (k : String)
    (excl : Option String) :
    (Geo.mkParams lats lons a k excl).lookup "units"
      = some ((a.units.getD WUnits.metric).toStr) := by
  simp [Geo.mkParams, List.lookup]

theorem Geo.mkParams_lookup_q (lats lons : String) (a : Args) (k : String)
    (excl : Option String) :
    (Geo.mkParams lats lons a k excl).lookup "q" = none := by
  rcases excl with _ | e
  · simp [Geo.mkParams, exclTail, List.lookup]
  · by_cases he : e = "" <;> simp [Geo.mkParams, exclTail, he, List.lookup]

theorem Geo.mkParams_lookup_city (lats lons : String) (a : Args) (k : String)
    (excl : Option String) :
    (Geo.mkParams lats lons a k excl).lookup "city" = none := by
  rcases excl with _ | e
  · simp [Geo.mkParams, exclTail, List.lookup]
  · by_cases he : e = "" <;> simp [Geo.mkParams, exclTail, he, List.lookup]

theorem Geo.mkParams_lookup_exclude (lats lons : String) (a : Args) (k : String)
    (excl : Option String) :
    (Geo.mkParams lats lons a k excl).lookup "exclude"
      = excl.bind (fun e => if e = "" then none else some e) := by
  rcases excl with _ | e
  · simp [Geo.mkParams, exclTail, List.lookup]
  · by_cases he : e = "" <;> simp [Geo.mkParams, exclTail, he, List.lookup]

/-- Successful `buildParams` runs of the geocoding variant always produce
a `mkParams`-shaped record. -/
theorem Geo.buildParamsT_ok (env : Geo.Env) (a : Args) (excl : Option String)
    (p : List (String × String))
    (h : (Geo.buildParamsT env a excl).1 = .ok p) :
    ∃ lats lons, p = Geo.mkParams lats lons a env.apiKey excl := by
  cases hz : zodIssues a with
  | cons i is => simp [Geo.buildParamsT, hz] at h
  | nil =>
    cases hc : a.city with
    | none =>
      simp [Geo.buildParamsT, hz, hc] at h
      exact ⟨_, _, h.symm⟩
    | some c =>
      by_cases hce : c = ""
      · simp [Geo.buildParamsT, hz, hc, hce] at h
        exact ⟨_, _, h.symm⟩
      · cases hg : env.geocode c with
        | none => simp [Geo.buildParamsT, hz, hc, hce, hg] at h
        | some ll =>
          obtain ⟨la, lo⟩ := ll
          simp [Geo.buildParamsT, hz, hc, hce, hg] at h
          exact ⟨_, _, h.symm⟩

/-- `commonSchema.parse` succeeds exactly when there are no field issues
and the refinement holds. -/
theorem zodIssues_nil_iff (a : Args) :
    zodIssues a = [] ↔ fieldIssues a = [] ∧ refineOk a = true := by
  unfold zodIssues
  cases h : fieldIssues a with
  | nil => by_cases hr : refineOk a <;> simp [hr]
  | cons i is => simp

/-- The field issues vanish exactly when every present coordinate is in
its inclusive range. -/
theorem fieldIssues_nil_iff (a : Args) :
    fieldIssues a = []
      ↔ (∀ q ∈ a.lat, -90 ≤ q ∧ q ≤ 90) ∧ (∀ q ∈ a.lon, -180 ≤ q ∧ q ≤ 180) := by
  unfold fieldIssues
  cases hla : a.lat <;> cases hlo : a.lon <;> simp [and_assoc]

/-! ### Claims -/

/-- C1: a query with no city and an incomplete coordinate pair must fail
validation with "Provide city or both lat and lon" and produce no outbound
parameters.  The geocoding variant's `buildParams` does exactly that (and
makes no request), but the direct-query variant's `buildParams` never runs
`commonSchema` — on the repository's own test input `{lat: 12.34}` it
produces an outbound parameter map with the literal string "undefined" as
`lon` instead of rejecting. -/
theorem c1_direct_variant_skips_validation :
    (Geo.buildParamsT envStub { lat := some (12.34 : Rat) } none).1
        = .error (.zod [ZodIssue.custom "Provide city or both lat and lon"])
      ∧ (Geo.buildParamsT envStub { lat := some (12.34 : Rat) } none).2 = []
      ∧ Direct.buildParams "KEY" { lat := some (12.34 : Rat) } none
        = [("units", "metric"), ("appid", "KEY"),
           ("lat", jsNumStr (12.34 : Rat)), ("lon", "undefined")]
      ∧ (Direct.buildParams "KEY" { lat := some (12.34 : Rat) } none).lookup "q" = none := by
  have hz : zodIssues { lat := some (12.34 : Rat) }
      = [ZodIssue.custom "Provide city or both lat and lon"] := by
    norm_num [zodIssues, fieldIssues, refineOk, jsTruthyStr]
  exact ⟨by simp [Geo.buildParamsT, hz], by simp [Geo.buildParamsT, hz], rfl, rfl⟩

/-- C2 counterexample: `{city: "", lat: 1, lon: 2}` is a query with `city`
supplied, yet the direct-query variant sends no `q` key and does send
`lat`/`lon`, and the geocoding variant uses the argument coordinates
(1, 2) rather than the geocoder's answer (10, 20 in `envStub`) and issues
no geocoding request — JS truthiness treats the empty city as absent. -/
theorem c2_empty_city_counterexample :
    (Direct.buildParams "KEY" { city := some "", lat := some 1, lon := some 2 } none).lookup "q"
        = none
      ∧ (Direct.buildParams "KEY" { city := some "", lat := some 1, lon := some 2 } none).lookup "lat"
        = some "1"
      ∧ (Geo.buildParamsT envStub { city := some "", lat := some 1, lon := some 2 } none).1
        = .ok [("lat", "1"), ("lon", "2"), ("units", "metric"), ("appid", "KEY")]
      ∧ (Geo.buildParamsT envStub { city := some "", lat := some 1, lon := some 2 } none).2 = [] :=
  ⟨rfl, rfl, rfl, rfl⟩

/-- C2 (amended to non-empty city): for a validated query with a non-empty
city, the geocoding variant's parameters carry the geocoded coordinates
under `lat`/`lon` and no `q`/`city` key, while the direct-query variant
sends the raw city as `q` and no `lat`/`lon` keys. -/
theorem c2_city_query_params (env : Geo.Env) (k : String) (a : Args) (c : String)
    (la lo : Rat) (excl : Option String)
    (hc : a.city = some c) (hne : c ≠ "") (hz : zodIssues a = [])
    (hg : env.geocode c = some (la, lo)) :
    (∃ p, (Geo.buildParamsT env a excl).1 = .ok p
        ∧ p.lookup "lat" = some (jsNumStr la)
        ∧ p.lookup "lon" = some (jsNumStr lo)
        ∧ p.lookup "q" = none
        ∧ p.lookup "city" = none)
      ∧ (Direct.buildParams k a excl).lookup "q" = some c
      ∧ (Direct.buildParams k a excl).lookup "lat" = none
      ∧ (Direct.buildParams k a excl).lookup "lon" = none := by
  constructor
  · refine ⟨Geo.mkParams (jsNumStr la) (jsNumStr lo) a env.apiKey excl, ?_, ?_, ?_, ?_, ?_⟩
    · simp [Geo.buildParamsT, hz, hc, hne, hg]
    · exact Geo.mkParams_lookup_lat ..
    · exact Geo.mkParams_lookup_lon ..
    · exact Geo.mkParams_lookup_q ..
    · exact Geo.mkParams_lookup_city ..
  · rcases excl with _ | e
    · simp [Direct.buildParams, hc, hne, exclTail, List.lookup]
    · by_cases he : e = "" <;>
        simp [Direct.buildParams, hc, hne, exclTail, he, List.lookup]

/-- C2 witness: instantiation at `aCity` (London) in `envStub`. -/
theorem c2_city_query_params_witness :
    (∃ p, (Geo.buildParamsT envStub aCity none).1 = .ok p
        ∧ p.lookup "lat" = some (jsNumStr 10)
        ∧ p.lookup "lon" = some (jsNumStr 20)
        ∧ p.lookup "q" = none
        ∧ p.lookup "city" = none)
      ∧ (Direct.buildParams "KEY" aCity none).lookup "q" = some "London"
      ∧ (Direct.buildParams "KEY" aCity none).lookup "lat" = none
      ∧ (Direct.buildParams "KEY" aCity none).lookup "lon" = none :=
  c2_city_query_params envStub "KEY" aCity "London" 10 20 none rfl (by decide) rfl rfl

/-- The parameter value the spec assigns to `units`: the caller's value
when specified, the default "metric" otherwise. -/
def specUnitsValue : Option WUnits → String
  | none => "metric"
  | some u => u.toStr

/-- C3: both variants put the key `units` in the outbound parameters, with
the caller's value passed through unchanged and "metric" substituted when
it is unspecified. -/
theorem c3_units_default_and_passthrough :
    (∀ (env : Geo.Env) (a : Args) (excl : Option String) (p : List (String × String)),
        (Geo.buildParamsT env a excl).1 = .ok p →
        p.lookup "units" = some (specUnitsValue a.units))
      ∧ (∀ (k : String) (a : Args) (excl : Option String),
        (Direct.buildParams k a excl).lookup "units" = some (specUnitsValue a.units)) := by
  have hval : ∀ u : Option WUnits, (u.getD WUnits.metric).toStr = specUnitsValue u := by
    intro u; cases u <;> rfl
  constructor
  · intro env a excl p h
    obtain ⟨lats, lons, rfl⟩ := Geo.buildParamsT_ok env a excl p h
    rw [Geo.mkParams_lookup_units, hval]
  · intro k a excl
    rw [← hval]
    simp [Direct.buildParams, List.lookup]

/-- C3 witness: default at the empty argument record, pass-through of
imperial at `aCoord`. -/
theorem c3_units_default_and_passthrough_witness :
    ([("lat", "10"), ("lon", "20"), ("units", "imperial"), ("appid", "KEY")]
        |> (List.lookup "units")) = some (specUnitsValue (some WUnits.imperial))
      ∧ (Direct.buildParams "KEY" {} none).lookup "units" = some (specUnitsValue none) :=
  ⟨c3_units_default_and_passthrough.1 envStub aCoord none _ rfl,
   c3_units_default_and_passthrough.2 "KEY" {} none⟩

/-- C4: a coordinate-based query passes `commonSchema` exactly when the
latitude lies in [-90, 90] and the longitude in [-180, 180] (both bounds
included), and any query carrying an out-of-range coordinate fails
validation. -/
theorem c4_coordinate_ranges (la lo : Rat) (u : Option WUnits) :
    (zodIssues { lat := some la, lon := some lo, units := u } = []
        ↔ -90 ≤ la ∧ la ≤ 90 ∧ -180 ≤ lo ∧ lo ≤ 180)
      ∧ (∀ a : Args,
          (a.lat = some la ∧ (la < -90 ∨ 90 < la))
            ∨ (a.lon = some lo ∧ (lo < -180 ∨ 180 < lo)) →
          zodIssues a ≠ []) := by
  constructor
  · rw [zodIssues_nil_iff, fieldIssues_nil_iff]
    simp [refineOk, and_assoc]
  · intro a hviol hnil
    rw [zodIssues_nil_iff, fieldIssues_nil_iff] at hnil
    rcases hviol with ⟨hla, hv⟩ | ⟨hlo, hv⟩
    · have := hnil.1.1 la (by simp [hla])
      rcases hv with h | h <;> linarith [this.1, this.2]
    · have := hnil.1.2 lo (by simp [hlo])
      rcases hv with h | h <;> linarith [this.1, this.2]

/-- C4 witness: the boundary pair (90, -180) is accepted; latitude 200 is
rejected even when a city is also supplied. -/
theorem c4_coordinate_ranges_witness :
    zodIssues { lat := some (90 : Rat), lon := some (-180 : Rat) } = []
      ∧ zodIssues { city := some "Oslo", lat := some (200 : Rat), lon := some (0 : Rat) } ≠ [] :=
  ⟨((c4_coordinate_ranges 90 (-180) none).1).mpr (by norm_num),
   (c4_coordinate_ranges 200 0 none).2 _ (Or.inl ⟨rfl, Or.inr (by norm_num)⟩)⟩

/-- C5 counterexample: the direct-query variant's registered
`get-current-weather` handler returns the parsed upstream JSON itself —
no `{content: [{type: "text", ...}]}` envelope is produced. -/
theorem c5_direct_returns_raw_json :
    (Direct.getCurrentWeather (fun _ _ => Json.obj [("temp", Json.num 5)]) "KEY" aCoord).1
      = Json.obj [("temp", Json.num 5)] := rfl

/-- C5 (amended to the geocoding variant): every successful invocation of
the four handlers registered by the geocoding variant returns the
`{content: [{type: "text", text: ...}]}` envelope, whereas the
direct-query variant's handlers return the parsed upstream JSON directly. -/
theorem c5_geo_handlers_wrap :
    (∀ (env : Geo.Env) (a : Args) (r : ToolResult),
        (Geo.getCurrentWeather env a).1 = .ok r → ∃ s, r = Geo.wrapText s)
      ∧ (∀ (env : Geo.Env) (a : Args) (r : ToolResult),
        (Geo.getForecast env a).1 = .ok r → ∃ s, r = Geo.wrapText s)
      ∧ (∀ (env : Geo.Env) (a : Args) (r : ToolResult),
        (Geo.getDailyForecast env a).1 = .ok r → ∃ s, r = Geo.wrapText s)
      ∧ (∀ (env : Geo.Env) (a : Args) (r : ToolResult),
        (Geo.getAlerts env a).1 = .ok r → ∃ s, r = Geo.wrapText s)
      ∧ (∀ (api : String → List (String × String) → Json) (k : String) (a : Args),
        (Direct.getCurrentWeather api k a).1
          = api Direct.weatherEndpoint (Direct.buildParams k a none))
      ∧ (∀ (api : String → List (String × String) → Json) (k : String) (a : Args),
        (Direct.getForecast api k a).1
          = api Direct.onecallEndpoint (Direct.buildParams k a (some "current,minutely,alerts")))
      ∧ (∀ (api : String → List (String × String) → Json) (k : String) (a : Args),
        (Direct.getAlerts api k a).1
          = api Direct.onecallEndpoint (Direct.buildParams k a (some "current,minutely,hourly,daily"))) := by
  refine ⟨?_, ?_, ?_, ?_, fun _ _ _ => rfl, fun _ _ _ => rfl, fun _ _ _ => rfl⟩
  · intro env a r h
    rcases hf : Geo.fetch env a none with ⟨res, tr⟩
    cases res with
    | ok data =>
      simp [Geo.getCurrentWeather, hf] at h
      exact ⟨_, h.symm⟩
    | error e => simp [Geo.getCurrentWeather, hf] at h
  · intro env a r h
    rcases hf : Geo.fetch env a (some "minutely,daily,alerts") with ⟨res, tr⟩
    cases res with
    | ok data =>
      simp [Geo.getForecast, hf] at h
      exact ⟨_, h.symm⟩
    | error e => simp [Geo.getForecast, hf] at h
  · intro env a r h
    rcases hf : Geo.fetch env a (some "minutely,hourly,alerts") with ⟨res, tr⟩
    cases res with
    | ok data =>
      simp [Geo.getDailyForecast, hf] at h
      exact ⟨_, h.symm⟩
    | error e => simp [Geo.getDailyForecast, hf] at h
  · intro env a r h
    rcases hf : Geo.fetch env a (some "minutely,hourly,daily") with ⟨res, tr⟩
    cases res with
    | ok data =>
      by_cases hc : alertsCond (jsGet data "alerts") <;>
        simp [Geo.getAlerts, hf, hc] at h <;> exact ⟨_, h.symm⟩
    | error e => simp [Geo.getAlerts, hf] at h

/-- C5 witness: the current-weather handler at `aCity` in `envStub`
succeeds with an envelope. -/
theorem c5_geo_handlers_wrap_witness :
    ∃ s, Geo.wrapText (jsonStringify2 Json.null) = Geo.wrapText s :=
  c5_geo_handlers_wrap.1 envStub aCity _ rfl

/-- An environment whose geocoder finds nothing (models a geocoding miss
or a failed Nominatim request, both of which make `geocodeCity` throw). -/
def envNoGeo : Geo.Env := ⟨fun _ => none, fun _ _ => Json.null, "KEY"⟩

/-- C6: a validation failure makes every handler of the geocoding variant
fail with the `ZodError` issues, producing no ToolResult and no outbound
request; a geocoding miss on a validated truthy-city query makes every
handler fail with the geocode error after exactly the one geocoding
request — no retry, no recovery, no weather call. -/
theorem c6_failures_propagate :
    (∀ (env : Geo.Env) (a : Args), zodIssues a ≠ [] →
        Geo.getCurrentWeather env a = (.error (.zod (zodIssues a)), [])
        ∧ Geo.getForecast env a = (.error (.zod (zodIssues a)), [])
        ∧ Geo.getDailyForecast env a = (.error (.zod (zodIssues a)), [])
        ∧ Geo.getAlerts env a = (.error (.zod (zodIssues a)), []))
      ∧ (∀ (env : Geo.Env) (a : Args) (c : String),
        zodIssues a = [] → a.city = some c → c ≠ "" → env.geocode c = none →
        Geo.getCurrentWeather env a = (.error (.geocodeFail c), [Request.geocode c])
        ∧ Geo.getForecast env a = (.error (.geocodeFail c), [Request.geocode c])
        ∧ Geo.getDailyForecast env a = (.error (.geocodeFail c), [Request.geocode c])
        ∧ Geo.getAlerts env a = (.error (.geocodeFail c), [Request.geocode c])) := by
  constructor
  · intro env a hz
    cases h : zodIssues a with
    | nil => exact absurd h hz
    | cons i is =>
      refine ⟨?_, ?_, ?_, ?_⟩ <;>
        simp [Geo.getCurrentWeather, Geo.getForecast, Geo.getDailyForecast, Geo.getAlerts,
          Geo.fetch, Geo.buildParamsT, h]
  · intro env a c hz hc hne hg
    refine ⟨?_, ?_, ?_, ?_⟩ <;>
      simp [Geo.getCurrentWeather, Geo.getForecast, Geo.getDailyForecast, Geo.getAlerts,
        Geo.fetch, Geo.buildParamsT, hz, hc, hne, hg]

/-- C6 witness: a missing-lon query fails with the refine issue and an
empty trace; a geocoding miss on London fails with the geocode error and
a single geocoding request. -/
theorem c6_failures_propagate_witness :
    Geo.getCurrentWeather envStub { lat := some 12 }
        = (.error (.zod (zodIssues { lat := some 12 })), [])
      ∧ Geo.getAlerts envNoGeo aCity
        = (.error (.geocodeFail "London"), [Request.geocode "London"]) :=
  ⟨(c6_failures_propagate.1 envStub { lat := some 12 } (by decide)).1,
   (c6_failures_propagate.2 envNoGeo aCity "London" rfl rfl (by decide) rfl).2.2.2⟩

/-- Each handler's outbound-request trace is the trace of its `fetch`. -/
theorem Geo.handler_trace (env : Geo.Env) (a : Args) :
    (Geo.getCurrentWeather env a).2 = (Geo.fetch env a none).2
      ∧ (Geo.getForecast env a).2 = (Geo.fetch env a (some "minutely,daily,alerts")).2
      ∧ (Geo.getDailyForecast env a).2 = (Geo.fetch env a (some "minutely,hourly,alerts")).2
      ∧ (Geo.getAlerts env a).2 = (Geo.fetch env a (some "minutely,hourly,daily")).2 := by
  refine ⟨?_, ?_, ?_, ?_⟩
  · rcases hf : Geo.fetch env a none with ⟨res, tr⟩
    cases res <;> simp [Geo.getCurrentWeather, hf]
  · rcases hf : Geo.fetch env a (some "minutely,daily,alerts") with ⟨res, tr⟩
    cases res <;> simp [Geo.getForecast, hf]
  · rcases hf : Geo.fetch env a (some "minutely,hourly,alerts") with ⟨res, tr⟩
    cases res <;> simp [Geo.getDailyForecast, hf]
  · rcases hf : Geo.fetch env a (some "minutely,hourly,daily") with ⟨res, tr⟩
    cases res with
    | error e => simp [Geo.getAlerts, hf]
    | ok data =>
      by_cases hc : alertsCond (jsGet data "alerts") <;> simp [Geo.getAlerts, hf, hc]

/-- Trace cases of `fetch`: never more than two requests; none on
validation failure; one weather call on a direct-coordinate query; one
geocoding call plus one weather call on a geocoded city (only the
geocoding call when the geocoder misses). -/
theorem Geo.fetch_trace_cases (env : Geo.Env) (a : Args) (excl : Option String) :
    (Geo.fetch env a excl).2.length ≤ 2
      ∧ (zodIssues a ≠ [] → (Geo.fetch env a excl).2 = [])
      ∧ (zodIssues a = [] → jsTruthyStr a.city = false → (Geo.fetch env a excl).2.length = 1)
      ∧ (∀ c, zodIssues a = [] → a.city = some c → c ≠ "" →
          ((∃ ll, env.geocode c = some ll) → (Geo.fetch env a excl).2.length = 2)
          ∧ (env.geocode c = none → (Geo.fetch env a excl).2.length = 1)) := by
  cases hz : zodIssues a with
  | cons i is =>
    have ht : (Geo.fetch env a excl).2 = [] := by
      simp [Geo.fetch, Geo.buildParamsT, hz]
    simp [ht, hz]
  | nil =>
    cases hc : a.city with
    | none =>
      have ht : (Geo.fetch env a excl).2.length = 1 := by
        simp [Geo.fetch, Geo.buildParamsT, hz, hc]
      simp [ht, hz, hc, jsTruthyStr]
    | some c =>
      by_cases hce : c = ""
      · have ht : (Geo.fetch env a excl).2.length = 1 := by
          simp [Geo.fetch, Geo.buildParamsT, hz, hc, hce]
        simp [ht, hz, hc, hce, jsTruthyStr]
      · cases hg : env.geocode c with
        | none =>
          have ht : (Geo.fetch env a excl).2.length = 1 := by
            simp [Geo.fetch, Geo.buildParamsT, hz, hc, hce, hg]
          simp [ht, hz, hc, hce, hg, jsTruthyStr]
        | some ll =>
          obtain ⟨la, lo⟩ := ll
          have ht : (Geo.fetch env a excl).2.length = 2 := by
            simp [Geo.fetch, Geo.buildParamsT, hz, hc, hce, hg]
          simp [ht, hz, hc, hce, hg, jsTruthyStr]

/-- C7 counterexample: with coordinates supplied directly but latitude 100
out of range, the invocation issues zero outbound requests, not one. -/
theorem c7_zero_requests_on_invalid :
    (Geo.getCurrentWeather envStub { lat := some 100, lon := some 0 }).2 = [] := by
  have hz : zodIssues { lat := some (100 : Rat), lon := some 0 } = [ZodIssue.latTooBig] := by
    decide
  simp [Geo.getCurrentWeather, Geo.fetch, Geo.buildParamsT, hz]

/-- C7 (amended to successful invocations): every geocoding-variant
invocation issues at most two outbound requests; zero on validation
failure; exactly one when the coordinates are used directly; exactly two
when a city is geocoded (only the geocoding request itself when the
geocoder misses).  Every direct-query-variant invocation issues exactly
one request. -/
theorem c7_request_counts :
    (∀ h ∈ [Geo.getCurrentWeather, Geo.getForecast, Geo.getDailyForecast, Geo.getAlerts],
      ∀ (env : Geo.Env) (a : Args),
        (h env a).2.length ≤ 2
        ∧ (zodIssues a ≠ [] → (h env a).2 = [])
        ∧ (zodIssues a = [] → jsTruthyStr a.city = false → (h env a).2.length = 1)
        ∧ (∀ c, zodIssues a = [] → a.city = some c → c ≠ "" →
            ((∃ ll, env.geocode c = some ll) → (h env a).2.length = 2)
            ∧ (env.geocode c = none → (h env a).2.length = 1)))
      ∧ (∀ hd ∈ [Direct.getCurrentWeather, Direct.getForecast, Direct.getAlerts],
        ∀ (api : String → List (String × String) → Json) (k : String) (a : Args),
          (hd api k a).2.length = 1) := by
  constructor
  · intro h hmem env a
    have htr := Geo.handler_trace env a
    simp only [List.mem_cons, List.mem_singleton] at hmem
    rcases hmem with rfl | rfl | rfl | rfl | h0
    · rw [htr.1]; exact Geo.fetch_trace_cases env a none
    · rw [htr.2.1]; exact Geo.fetch_trace_cases env a _
    · rw [htr.2.2.1]; exact Geo.fetch_trace_cases env a _
    · rw [htr.2.2.2]; exact Geo.fetch_trace_cases env a _
    · cases h0
  · intro hd hmem api k a
    simp only [List.mem_cons, List.mem_singleton] at hmem
    rcases hmem with rfl | rfl | rfl | h0
    · rfl
    · rfl
    · rfl
    · cases h0

/-- C7 witness: a geocoded city query makes two requests; a direct-variant
invocation makes one. -/
theorem c7_request_counts_witness :
    (Geo.getCurrentWeather envStub aCity).2.length = 2
      ∧ (Direct.getForecast (fun _ _ => Json.null) "KEY" aCity).2.length = 1 :=
  ⟨((c7_request_counts.1 Geo.getCurrentWeather (by simp) envStub aCity).2.2.2
      "London" rfl rfl (by decide)).1 ⟨(10, 20), rfl⟩,
   c7_request_counts.2 Direct.getForecast (by simp) (fun _ _ => Json.null) "KEY" aCity⟩

/-- C8 counterexample: with a non-empty city, changing the supplied
latitude from 50 to the out-of-range 200 flips the geocoding variant's
`buildParams` from producing the geocoded parameters to rejecting the
call — the supplied coordinates do have an effect. -/
theorem c8_out_of_range_coords_effect :
    (Geo.buildParamsT envStub { city := some "Paris", lat := some 200, lon := some 0 } none).1
        = .error (.zod [ZodIssue.latTooBig])
      ∧ (Geo.buildParamsT envStub { city := some "Paris", lat := some 50, lon := some 0 } none).1
        = .ok [("lat", jsNumStr 10), ("lon", jsNumStr 20), ("units", "metric"), ("appid", "KEY")] := by
  constructor
  · have hz : zodIssues { city := some "Paris", lat := some (200 : Rat), lon := some 0 }
        = [ZodIssue.latTooBig] := by decide
    simp [Geo.buildParamsT, hz]
  · rfl

/-- C8 (amended to in-range coordinates): when a non-empty city is
supplied together with a full coordinate pair, the coordinate values have
no effect as long as they are within their valid ranges — the geocoding
variant produces identical results for any two in-range pairs (the
geocoded coordinates are used), and the direct-query variant ignores the
pair entirely (any values, in range or not), sending only `q`. -/
theorem c8_city_precedence :
    (∀ (env : Geo.Env) (excl : Option String) (c : String) (u : Option WUnits)
        (la lo la2 lo2 : Rat), c ≠ "" →
        -90 ≤ la → la ≤ 90 → -180 ≤ lo → lo ≤ 180 →
        -90 ≤ la2 → la2 ≤ 90 → -180 ≤ lo2 → lo2 ≤ 180 →
        Geo.buildParamsT env { city := some c, lat := some la, lon := some lo, units := u } excl
          = Geo.buildParamsT env { city := some c, lat := some la2, lon := some lo2, units := u } excl)
      ∧ (∀ (k : String) (excl : Option String) (c : String) (u : Option WUnits)
          (la lo la2 lo2 : Rat), c ≠ "" →
          Direct.buildParams k { city := some c, lat := some la, lon := some lo, units := u } excl
            = Direct.buildParams k { city := some c, lat := some la2, lon := some lo2, units := u } excl
          ∧ (Direct.buildParams k { city := some c, lat := some la, lon := some lo, units := u } excl).lookup "q"
            = some c
          ∧ (Direct.buildParams k { city := some c, lat := some la, lon := some lo, units := u } excl).lookup "lat"
            = none
          ∧ (Direct.buildParams k { city := some c, lat := some la, lon := some lo, units := u } excl).lookup "lon"
            = none) := by
  constructor
  · intro env excl c u la lo la2 lo2 hne h1 h2 h3 h4 h5 h6 h7 h8
    have hz1 : zodIssues { city := some c, lat := some la, lon := some lo, units := u } = [] := by
      rw [zodIssues_nil_iff, fieldIssues_nil_iff]
      refine ⟨⟨?_, ?_⟩, by simp [refineOk]⟩ <;> simp_all
    have hz2 : zodIssues { city := some c, lat := some la2, lon := some lo2, units := u } = [] := by
      rw [zodIssues_nil_iff, fieldIssues_nil_iff]
      refine ⟨⟨?_, ?_⟩, by simp [refineOk]⟩ <;> simp_all
    simp [Geo.buildParamsT, hz1, hz2, hne, Geo.mkParams]
  · intro k excl c u la lo la2 lo2 hne
    refine ⟨by simp [Direct.buildParams, hne], ?_, ?_, ?_⟩ <;>
      · rcases excl with _ | e
        · simp [Direct.buildParams, hne, exclTail, List.lookup]
        · by_cases he : e = "" <;>
            simp [Direct.buildParams, hne, exclTail, he, List.lookup]

/-- C8 witness: two in-range pairs give identical geocoding-variant
results for Paris, and the direct variant sends `q` only. -/
theorem c8_city_precedence_witness :
    Geo.buildParamsT envStub { city := some "Paris", lat := some 50, lon := some 0 } none
        = Geo.buildParamsT envStub { city := some "Paris", lat := some 60, lon := some 5 } none
      ∧ (Direct.buildParams "KEY" { city := some "Paris", lat := some 50, lon := some 0 } none).lookup "q"
        = some "Paris" :=
  ⟨c8_city_precedence.1 envStub none "Paris" none 50 0 60 5 (by decide)
      (by norm_num) (by norm_num) (by norm_num) (by norm_num)
      (by norm_num) (by norm_num) (by norm_num) (by norm_num),
   ((c8_city_precedence.2 "KEY" none "Paris" none 50 0 60 5 (by decide)).2.1)⟩

/-- A successful `fetch` made its weather GET with exactly the parameter
record `buildParams` produced, as the last request of the trace. -/
theorem Geo.fetch_ok_request (env : Geo.Env) (a : Args) (excl : Option String)
    (data : Json) (tr : List Request)
    (hf : Geo.fetch env a excl = (.ok data, tr)) :
    ∃ tr0 p, tr = tr0 ++ [Request.apiGet Geo.owOnecall p]
      ∧ (Geo.buildParamsT env a excl).1 = .ok p := by
  unfold Geo.fetch at hf
  rcases hb : Geo.buildParamsT env a excl with ⟨res0, tr0⟩
  rw [hb] at hf
  cases res0 with
  | error e => simp at hf
  | ok p =>
    simp at hf
    exact ⟨tr0, p, hf.2.symm, rfl⟩

/-- C9: in both variants the outbound map carries the key `exclude`
exactly when the `exclude` argument is a present non-empty string, and
then with that exact value; and each geocoding-variant handler's weather
request carries its fixed exclusion list (none, "minutely,daily,alerts",
"minutely,hourly,alerts", "minutely,hourly,daily" respectively). -/
theorem c9_exclude_handling :
    (∀ (env : Geo.Env) (a : Args) (excl : Option String) (p : List (String × String)),
        (Geo.buildParamsT env a excl).1 = .ok p →
        p.lookup "exclude" = excl.bind (fun e => if e = "" then none else some e))
      ∧ (∀ (k : String) (a : Args) (excl : Option String),
        (Direct.buildParams k a excl).lookup "exclude"
          = excl.bind (fun e => if e = "" then none else some e))
      ∧ (∀ (env : Geo.Env) (a : Args) (r : ToolResult),
        (Geo.getCurrentWeather env a).1 = .ok r →
        ∃ tr0 p, (Geo.getCurrentWeather env a).2 = tr0 ++ [Request.apiGet Geo.owOnecall p]
          ∧ p.lookup "exclude" = none)
      ∧ (∀ (env : Geo.Env) (a : Args) (r : ToolResult),
        (Geo.getForecast env a).1 = .ok r →
        ∃ tr0 p, (Geo.getForecast env a).2 = tr0 ++ [Request.apiGet Geo.owOnecall p]
          ∧ p.lookup "exclude" = some "minutely,daily,alerts")
      ∧ (∀ (env : Geo.Env) (a : Args) (r : ToolResult),
        (Geo.getDailyForecast env a).1 = .ok r →
        ∃ tr0 p, (Geo.getDailyForecast env a).2 = tr0 ++ [Request.apiGet Geo.owOnecall p]
          ∧ p.lookup "exclude" = some "minutely,hourly,alerts")
      ∧ (∀ (env : Geo.Env) (a : Args) (r : ToolResult),
        (Geo.getAlerts env a).1 = .ok r →
        ∃ tr0 p, (Geo.getAlerts env a).2 = tr0 ++ [Request.apiGet Geo.owOnecall p]
          ∧ p.lookup "exclude" = some "minutely,hourly,daily") := by
  have h1 : ∀ (env : Geo.Env) (a : Args) (excl : Option String) (p : List (String × String)),
      (Geo.buildParamsT env a excl).1 = .ok p →
      p.lookup "exclude" = excl.bind (fun e => if e = "" then none else some e) := by
    intro env a excl p h
    obtain ⟨lats, lons, rfl⟩ := Geo.buildParamsT_ok env a excl p h
    exact Geo.mkParams_lookup_exclude ..
  refine ⟨h1, ?_, ?_, ?_, ?_, ?_⟩
  · intro k a excl
    rcases excl with _ | e
    · cases hc : a.city with
      | none => simp [Direct.buildParams, hc, exclTail, List.lookup]
      | some c =>
        by_cases hce : c = "" <;> simp [Direct.buildParams, hc, hce, exclTail, List.lookup]
    · by_cases he : e = ""
      · cases hc : a.city with
        | none => simp [Direct.buildParams, hc, he, exclTail, List.lookup]
        | some c =>
          by_cases hce : c = "" <;> simp [Direct.buildParams, hc, hce, he, exclTail, List.lookup]
      · simp [Direct.buildParams, he, exclTail, List.lookup]
  · intro env a r h
    rcases hf : Geo.fetch env a none with ⟨res, tr2⟩
    cases res with
    | error e => simp [Geo.getCurrentWeather, hf] at h
    | ok data =>
      obtain ⟨tr0, p, htr, hok⟩ := Geo.fetch_ok_request env a none data tr2 hf
      exact ⟨tr0, p, by simp [Geo.getCurrentWeather, hf, htr], by simpa using h1 env a none p hok⟩
  · intro env a r h
    rcases hf : Geo.fetch env a (some "minutely,daily,alerts") with ⟨res, tr2⟩
    cases res with
    | error e => simp [Geo.getForecast, hf] at h
    | ok data =>
      obtain ⟨tr0, p, htr, hok⟩ := Geo.fetch_ok_request env a _ data tr2 hf
      exact ⟨tr0, p, by simp [Geo.getForecast, hf, htr], by simpa using h1 env a _ p hok⟩
  · intro env a r h
    rcases hf : Geo.fetch env a (some "minutely,hourly,alerts") with ⟨res, tr2⟩
    cases res with
    | error e => simp [Geo.getDailyForecast, hf] at h
    | ok data =>
      obtain ⟨tr0, p, htr, hok⟩ := Geo.fetch_ok_request env a _ data tr2 hf
      exact ⟨tr0, p, by simp [Geo.getDailyForecast, hf, htr], by simpa using h1 env a _ p hok⟩
  · intro env a r h
    rcases hf : Geo.fetch env a (some "minutely,hourly,daily") with ⟨res, tr2⟩
    cases res with
    | error e => simp [Geo.getAlerts, hf] at h
    | ok data =>
      obtain ⟨tr0, p, htr, hok⟩ := Geo.fetch_ok_request env a _ data tr2 hf
      refine ⟨tr0, p, ?_, by simpa using h1 env a _ p hok⟩
      by_cases hc : alertsCond (jsGet data "alerts") <;> simp [Geo.getAlerts, hf, hc, htr]

/-- C9 witness: an empty-string exclude argument is omitted; the hourly
forecast handler's weather request carries its fixed list. -/
theorem c9_exclude_handling_witness :
    (Direct.buildParams "KEY" aCity (some "")).lookup "exclude"
        = (some "").bind (fun e => if e = "" then none else some e)
      ∧ ∃ tr0 p, (Geo.getForecast envStub aCity).2 = tr0 ++ [Request.apiGet Geo.owOnecall p]
          ∧ p.lookup "exclude" = some "minutely,daily,alerts" :=
  ⟨c9_exclude_handling.2.1 "KEY" aCity (some ""),
   c9_exclude_handling.2.2.2.1 envStub aCity _ rfl⟩

/-- A payload built by the then-branch of `getAlerts` begins with
"Weather Alerts:". -/
theorem strStarts_weather_alerts (x : String) :
    strStarts "Weather Alerts:" ("Weather Alerts:\n\n" ++ x) = true := rfl

/-- A payload built by the else-branch of `getAlerts` does not begin with
"Weather Alerts:". -/
theorem strStarts_no_active (x : String) :
    strStarts "Weather Alerts:"
      ("No active weather alerts for the specified location.\n\nCurrent conditions:\n" ++ x)
      = false := rfl

/-- C10: on a successful alerts invocation whose upstream response carries
`alerts` as an array or not at all (the One Call contract), the returned
text begins with "Weather Alerts:" exactly when that array is non-empty;
otherwise the text is the fixed "No active weather alerts for the
specified location." sentence followed by the stringified object carrying
the response's `lat`, `lon` (in the `location` line) and `current`
fields. -/
theorem c10_alerts_branching (env : Geo.Env) (a : Args) (p : List (String × String))
    (hp : (Geo.buildParamsT env a (some "minutely,hourly,daily")).1 = .ok p)
    (hshape : jsGet (env.api Geo.owOnecall p) "alerts" = none
        ∨ ∃ l, jsGet (env.api Geo.owOnecall p) "alerts" = some (Json.arr l)) :
    ∃ t, (Geo.getAlerts env a).1 = .ok (Geo.wrapText t)
      ∧ (strStarts "Weather Alerts:" t = true
          ↔ ∃ x xs, jsGet (env.api Geo.owOnecall p) "alerts" = some (Json.arr (x :: xs)))
      ∧ ((¬ ∃ x xs, jsGet (env.api Geo.owOnecall p) "alerts" = some (Json.arr (x :: xs))) →
          t = "No active weather alerts for the specified location.\n\nCurrent conditions:\n"
            ++ jsonStringify2 (Json.obj
                [("location", Json.str (jsTemplate (jsGet (env.api Geo.owOnecall p) "lat")
                    ++ ", " ++ jsTemplate (jsGet (env.api Geo.owOnecall p) "lon"))),
                 ("current", (jsGet (env.api Geo.owOnecall p) "current").getD Json.undef)])) := by
  have hf : Geo.fetch env a (some "minutely,hourly,daily")
      = (.ok (env.api Geo.owOnecall p),
         (Geo.buildParamsT env a (some "minutely,hourly,daily")).2
           ++ [Request.apiGet Geo.owOnecall p]) := by
    unfold Geo.fetch
    rcases hb : Geo.buildParamsT env a (some "minutely,hourly,daily") with ⟨res0, tr0⟩
    rw [hb] at hp
    cases res0 with
    | error e => simp at hp
    | ok p0 =>
      simp at hp
      subst hp
      rfl
  rcases hshape with hnone | ⟨l, harr⟩
  · refine ⟨Geo.noAlertsPayload (env.api Geo.owOnecall p), ?_, ?_, ?_⟩
    · simp [Geo.getAlerts, hf, hnone, alertsCond]
    · rw [Geo.noAlertsPayload, strStarts_no_active]
      simp [hnone]
    · intro _
      rw [Geo.noAlertsPayload]
  · cases l with
    | nil =>
      refine ⟨Geo.noAlertsPayload (env.api Geo.owOnecall p), ?_, ?_, ?_⟩
      · simp [Geo.getAlerts, hf, harr, alertsCond]
      · rw [Geo.noAlertsPayload, strStarts_no_active]
        simp [harr]
      · intro _
        rw [Geo.noAlertsPayload]
    | cons x xs =>
      refine ⟨"Weather Alerts:\n\n" ++ jsonStringify2 (Json.arr (x :: xs)), ?_, ?_, ?_⟩
      · simp [Geo.getAlerts, hf, harr, alertsCond]
      · rw [strStarts_weather_alerts]
        simp [harr]
      · intro hno
        exact absurd ⟨x, xs, harr⟩ hno

/-- An environment whose weather API reports one active alert. -/
def envAlert : Geo.Env :=
  ⟨fun _ => some (10, 20), fun _ _ => Json.obj [("alerts", Json.arr [Json.str "storm"])], "KEY"⟩

/-- The parameter record the alerts handler builds for `aCity` in
`envAlert`. -/
def pAlert : List (String × String) :=
  [("lat", jsNumStr 10), ("lon", jsNumStr 20), ("units", "metric"), ("appid", "KEY"),
   ("exclude", "minutely,hourly,daily")]

/-- C10 witness: instantiation at `aCity` in `envAlert`. -/
theorem c10_alerts_branching_witness :
    ∃ t, (Geo.getAlerts envAlert aCity).1 = .ok (Geo.wrapText t)
      ∧ (strStarts "Weather Alerts:" t = true
          ↔ ∃ x xs, jsGet (envAlert.api Geo.owOnecall pAlert) "alerts" = some (Json.arr (x :: xs)))
      ∧ ((¬ ∃ x xs, jsGet (envAlert.api Geo.owOnecall pAlert) "alerts" = some (Json.arr (x :: xs))) →
          t = "No active weather alerts for the specified location.\n\nCurrent conditions:\n"
            ++ jsonStringify2 (Json.obj
                [("location", Json.str (jsTemplate (jsGet (envAlert.api Geo.owOnecall pAlert) "lat")
                    ++ ", " ++ jsTemplate (jsGet (envAlert.api Geo.owOnecall pAlert) "lon"))),
                 ("current", (jsGet (envAlert.api Geo.owOnecall pAlert) "current").getD Json.undef)])) :=
  c10_alerts_branching envAlert aCity pAlert rfl (Or.inr ⟨_, rfl⟩)
